import Mathlib

/-!
Verification of the OpenFx gateway runtime (`server.go`, `main.go`).

The gRPC handlers of `FxGateway` are embedded as pure Lean functions.
Each handler takes, besides the gateway value and the request message, the
behaviour of the external collaborator it calls (the `service.*` function or
the Prometheus fetcher) as an explicit argument: a Lean function applied to
exactly the arguments the Go code passes, returning `Except GoError α` in
place of Go's `(α, error)` pair.  A handler's result is a `HandlerOut`
record holding the Go return pair (`reply : Option α`, `error : Option GoError`),
the sequence of writes the handler issued against the process-wide metrics
registry, the names of the service-layer calls it made, and the gateway
value after the call (the handlers never assign to any field, which the
embedding shows by returning the receiver unchanged).
-/

namespace OpenFx

/-- Go `error` values, abstracted to their message. -/
abbrev GoError := String

/-- `config.FxGatewayConfig`: the configuration resolved once at startup.
The `config` package is not under `src/`; the field list follows the
fields `server.go` and the spec use (ports, namespace, timeouts,
image-pull policy, probe flag, secret mount path, Prometheus endpoint). -/
structure FxGatewayConfig where
  tcpPort : Nat
  functionNamespace : String
  fxWatcherPort : Nat
  invokeTimeout : Nat
  readTimeout : Nat
  writeTimeout : Nat
  idleTimeout : Nat
  enableHttpProbe : Bool
  imagePullPolicy : String
  secretMountPath : String
  prometheusHost : String
  prometheusPort : Nat
deriving DecidableEq, Repr

/-- `*kubernetes.Clientset`: an abstract handle to the orchestration backend,
shared read-only by all handlers. -/
structure Clientset where
  clusterId : Nat
deriving DecidableEq, Repr

/-- `metrics.MetricOptions`: a handle to the process-wide metrics registry.
The registry's mutations are tracked as `MetricsEvent` traces in `HandlerOut`. -/
structure MetricOptions where
  registryId : Nat
deriving DecidableEq, Repr

/-- `metrics.PrometheusQueryFetcher`: the Prometheus query client. -/
structure PrometheusQueryFetcher where
  host : String
  port : Nat
deriving DecidableEq, Repr

/-- `metrics.BuildMetricsOptions()`: builds the registry handle. -/
def BuildMetricsOptions : MetricOptions :=
  { registryId := 0 }

/-- `metrics.NewPrometheusQuery(host, port, client)`. -/
def NewPrometheusQuery (host : String) (port : Nat) : PrometheusQueryFetcher :=
  { host := host, port := port }

/-- The `FxGateway` struct of `server.go` (the `httpServer`/`grpcServer`
fields are assigned only inside `Start` and carry no configuration). -/
structure FxGateway where
  conf : FxGatewayConfig
  kubeClient : Clientset
  metricsOptions : MetricOptions
  metricsFetcher : PrometheusQueryFetcher
deriving DecidableEq, Repr

/-- `NewFxGateway(c, k)` from `server.go`. -/
def NewFxGateway (c : FxGatewayConfig) (k : Clientset) : FxGateway :=
  { conf := c
    kubeClient := k
    metricsOptions := BuildMetricsOptions
    metricsFetcher := NewPrometheusQuery c.prometheusHost c.prometheusPort }

/-- One write against the process-wide metrics registry: either an
invocation notification (`MetricOptions.Notify`: counter increment with an
outcome label plus a duration observation) or a replica gauge write. -/
inductive MetricsEvent where
  | notify (functionName : String) (duration : Nat) (outcome : String)
  | gaugeSet (functionName : String) (replicas : Nat)
deriving DecidableEq, Repr

/-- The outcome of one gRPC handler call: Go's `(reply, error)` return pair,
the metrics-registry writes the handler issued, the service-layer calls it
made, and the gateway value after the call. -/
structure HandlerOut (α : Type) where
  reply : Option α
  error : Option GoError
  metricsEvents : List MetricsEvent
  backendCalls : List String
  gatewayAfter : FxGateway
deriving Repr

/-- `pb.Message`: a reply carrying one string; it has no error field. -/
structure Message where
  msg : String
deriving DecidableEq, Repr

/-- `pb.Empty`. -/
structure PbEmpty where
deriving DecidableEq, Repr

/-- `pb.InvokeServiceRequest`: function name and opaque payload bytes. -/
structure InvokeServiceRequest where
  service : String
  input : List Nat
deriving DecidableEq, Repr

/-- Modelled from the spec: resource limits as strings with unit suffixes
(`Resources` of the wire protocol). -/
structure Resources where
  memory : String
  cpu : String
  gpu : String
deriving DecidableEq, Repr

/-- Modelled from the spec: a trigger descriptor (name, topic, schedule). -/
structure Trigger where
  name : String
  topic : String
  time : String
deriving DecidableEq, Repr

/-- Modelled from the spec: `pb.Function` — identity (name, namespace),
runtime identifier, resource limits, trigger descriptor, replica count and
optionally enriched metrics (invocation count, average duration, last
status).  The `pb` package is not under `src/`. -/
structure Function where
  name : String
  fnNamespace : String
  runtime : String
  limits : Resources
  trigger : Trigger
  replicas : Nat
  invocationCount : Nat
  avgDuration : Nat
  lastStatus : String
deriving DecidableEq, Repr

/-- `pb.Functions`: the `List` reply message wrapping the function list. -/
structure Functions where
  functions : List Function
deriving DecidableEq, Repr

/-- `pb.CreateFunctionRequest`: the full function spec a deploy/update
carries (name, image, resources; modelled from the spec's operation table). -/
structure CreateFunctionRequest where
  service : String
  image : String
  limits : Resources
deriving DecidableEq, Repr

/-- `pb.DeleteFunctionRequest`. -/
structure DeleteFunctionRequest where
  functionName : String
deriving DecidableEq, Repr

/-- `pb.FunctionRequest` (GetMeta / GetLog input). -/
structure FunctionRequest where
  functionName : String
deriving DecidableEq, Repr

/-- `pb.ScaleServiceRequest`. -/
structure ScaleServiceRequest where
  functionName : String
  replicas : Nat
deriving DecidableEq, Repr

/-- `service.DeployHandlerConfig` as built inside `FxGateway.Deploy`. -/
structure DeployHandlerConfig where
  enableHttpProbe : Bool
  imagePullPolicy : String
  functionNamespace : String
  fxWatcherPort : Nat
  secretMountPath : String
deriving DecidableEq, Repr

/-- The live metrics enrichment fetched from Prometheus for one function. -/
structure FunctionMetrics where
  invocationCount : Nat
  avgDuration : Nat
  lastStatus : String
deriving DecidableEq, Repr

/-- Modelled from the spec: `metrics.AddMetricsFunction` (the `metrics`
package is not under `src/`) — "enriches with live metrics (best-effort)":
when the fetch for the function succeeds its metrics fields are overwritten
with the fetched values, and a fetch failure leaves the function as the
backend returned it, never failing the call. -/
def AddMetricsFunction (fn : Function) (fetch : String → Option FunctionMetrics) : Function :=
  match fetch fn.name with
  | some m =>
      { fn with
        invocationCount := m.invocationCount
        avgDuration := m.avgDuration
        lastStatus := m.lastStatus }
  | none => fn

/-- Modelled from the spec: `metrics.AddMetricsFunctions` — enriches each
function of the list with live metrics, best-effort per function. -/
def AddMetricsFunctions (fns : List Function) (fetch : String → Option FunctionMetrics) : List Function :=
  fns.map (fun fn => AddMetricsFunction fn fetch)

/-- `FxGateway.Invoke` from `server.go`.  `serviceInvoke` is the behaviour
of `service.Invoke(service, namespace, watcherPort, input, timeout)`;
`elapsed` is the measured wall-clock duration `time.Since(start)`.  The Go
code returns the error immediately when `service.Invoke` fails and calls
`f.metricsOptions.Notify(s.Service, end, "OK")` only on the success path. -/
def FxGateway.Invoke (f : FxGateway) (s : InvokeServiceRequest)
    (serviceInvoke : String → String → Nat → List Nat → Nat → Except GoError String)
    (elapsed : Nat) : HandlerOut Message :=
  match serviceInvoke s.service f.conf.functionNamespace f.conf.fxWatcherPort s.input f.conf.invokeTimeout with
  | .error e =>
      { reply := none, error := some e, metricsEvents := []
        backendCalls := ["service.Invoke"], gatewayAfter := f }
  | .ok output =>
      { reply := some { msg := output }, error := none
        metricsEvents := [MetricsEvent.notify s.service elapsed ("OK")]
        backendCalls := ["service.Invoke"], gatewayAfter := f }

/-- `FxGateway.List` from `server.go`: lists functions via
`service.List(namespace, kubeClient)` and enriches them via
`metrics.AddMetricsFunctions`; an error from the backend is returned as is. -/
def FxGateway.List (f : FxGateway) (_s : PbEmpty)
    (serviceList : String → Clientset → Except GoError (List Function))
    (fetch : String → Option FunctionMetrics) : HandlerOut Functions :=
  match serviceList f.conf.functionNamespace f.kubeClient with
  | .error e =>
      { reply := none, error := some e, metricsEvents := []
        backendCalls := ["service.List"], gatewayAfter := f }
  | .ok functions =>
      { reply := some { functions := AddMetricsFunctions functions fetch }
        error := none, metricsEvents := []
        backendCalls := ["service.List"], gatewayAfter := f }

/-- `FxGateway.Deploy` from `server.go`: builds a `DeployHandlerConfig`
from the gateway configuration, calls `service.Deploy` and returns the
fixed marker `"OK"` on success. -/
def FxGateway.Deploy (f : FxGateway) (s : CreateFunctionRequest)
    (serviceDeploy : CreateFunctionRequest → Clientset → DeployHandlerConfig → Except GoError Unit) :
    HandlerOut Message :=
  let deployConfig : DeployHandlerConfig :=
    { enableHttpProbe := f.conf.enableHttpProbe
      imagePullPolicy := f.conf.imagePullPolicy
      functionNamespace := f.conf.functionNamespace
      fxWatcherPort := f.conf.fxWatcherPort
      secretMountPath := f.conf.secretMountPath }
  match serviceDeploy s f.kubeClient deployConfig with
  | .error e =>
      { reply := none, error := some e, metricsEvents := []
        backendCalls := ["service.Deploy"], gatewayAfter := f }
  | .ok _ =>
      { reply := some { msg := "OK" }, error := none, metricsEvents := []
        backendCalls := ["service.Deploy"], gatewayAfter := f }

/-- `FxGateway.Delete` from `server.go`: calls
`service.Delete(functionName, namespace, kubeClient)`; on success returns
the fixed marker `"OK"`, on failure the error.  It touches no metrics. -/
def FxGateway.Delete (f : FxGateway) (s : DeleteFunctionRequest)
    (serviceDelete : String → String → Clientset → Except GoError Unit) :
    HandlerOut Message :=
  match serviceDelete s.functionName f.conf.functionNamespace f.kubeClient with
  | .error e =>
      { reply := none, error := some e, metricsEvents := []
        backendCalls := ["service.Delete"], gatewayAfter := f }
  | .ok _ =>
      { reply := some { msg := "OK" }, error := none, metricsEvents := []
        backendCalls := ["service.Delete"], gatewayAfter := f }

/-- `FxGateway.Update` from `server.go`: calls
`service.Update(namespace, s, kubeClient, secretMountPath)`. -/
def FxGateway.Update (f : FxGateway) (s : CreateFunctionRequest)
    (serviceUpdate : String → CreateFunctionRequest → Clientset → String → Except GoError Unit) :
    HandlerOut Message :=
  match serviceUpdate f.conf.functionNamespace s f.kubeClient f.conf.secretMountPath with
  | .error e =>
      { reply := none, error := some e, metricsEvents := []
        backendCalls := ["service.Update"], gatewayAfter := f }
  | .ok _ =>
      { reply := some { msg := "OK" }, error := none, metricsEvents := []
        backendCalls := ["service.Update"], gatewayAfter := f }

/-- `FxGateway.GetMeta` from `server.go`: fetches one function via
`service.GetMeta` and enriches it via `metrics.AddMetricsFunction`. -/
def FxGateway.GetMeta (f : FxGateway) (s : FunctionRequest)
    (serviceGetMeta : String → String → Clientset → Except GoError Function)
    (fetch : String → Option FunctionMetrics) : HandlerOut Function :=
  match serviceGetMeta s.functionName f.conf.functionNamespace f.kubeClient with
  | .error e =>
      { reply := none, error := some e, metricsEvents := []
        backendCalls := ["service.GetMeta"], gatewayAfter := f }
  | .ok fn =>
      { reply := some (AddMetricsFunction fn fetch), error := none
        metricsEvents := []
        backendCalls := ["service.GetMeta"], gatewayAfter := f }

/-- `FxGateway.GetLog` from `server.go`: calls `service.GetLog` and wraps
the log text in a `pb.Message`. -/
def FxGateway.GetLog (f : FxGateway) (s : FunctionRequest)
    (serviceGetLog : String → String → Clientset → Except GoError String) :
    HandlerOut Message :=
  match serviceGetLog s.functionName f.conf.functionNamespace f.kubeClient with
  | .error e =>
      { reply := none, error := some e, metricsEvents := []
        backendCalls := ["service.GetLog"], gatewayAfter := f }
  | .ok logText =>
      { reply := some { msg := logText }, error := none, metricsEvents := []
        backendCalls := ["service.GetLog"], gatewayAfter := f }

/-- `FxGateway.ReplicaUpdate` from `server.go`: calls
`service.ReplicaUpdate(namespace, s, kubeClient)`. -/
def FxGateway.ReplicaUpdate (f : FxGateway) (s : ScaleServiceRequest)
    (serviceReplicaUpdate : String → ScaleServiceRequest → Clientset → Except GoError Unit) :
    HandlerOut Message :=
  match serviceReplicaUpdate f.conf.functionNamespace s f.kubeClient with
  | .error e =>
      { reply := none, error := some e, metricsEvents := []
        backendCalls := ["service.ReplicaUpdate"], gatewayAfter := f }
  | .ok _ =>
      { reply := some { msg := "OK" }, error := none, metricsEvents := []
        backendCalls := ["service.ReplicaUpdate"], gatewayAfter := f }

/-- `FxGateway.Info` from `server.go`: calls `service.Info(kubeClient)`. -/
def FxGateway.Info (f : FxGateway) (_s : PbEmpty)
    (serviceInfo : Clientset → Except GoError String) : HandlerOut Message :=
  match serviceInfo f.kubeClient with
  | .error e =>
      { reply := none, error := some e, metricsEvents := []
        backendCalls := ["service.Info"], gatewayAfter := f }
  | .ok info =>
      { reply := some { msg := info }, error := none, metricsEvents := []
        backendCalls := ["service.Info"], gatewayAfter := f }

/-- `FxGateway.HealthCheck` from `server.go`: unconditionally returns
`&pb.Message{Msg: "OK"}, nil` — no service-layer call, no metrics write. -/
def FxGateway.HealthCheck (f : FxGateway) (_s : PbEmpty) : HandlerOut Message :=
  { reply := some { msg := "OK" }, error := none, metricsEvents := []
    backendCalls := [], gatewayAfter := f }

/-! ### The connection demultiplexer of `Start`

`Start` hands the TCP listener to `cmux` and registers two matchers in this
order: first the gRPC listener via
`cmux.HTTP2MatchHeaderFieldPrefixSendSettings("content-type", "application/grpc")`,
then the HTTP listener via `cmux.Match(cmux.HTTP1Fast())`.  `cmux` itself is
an external dependency; its dispatch rule is modelled from the spec:
a two-branch classifier over the connection's leading bytes with strict
match order, first matcher that fires wins, and an explicit
"neither matched" terminal outcome in which the demultiplexer closes the
connection and surfaces a transport error. -/

/-- The protocol-level features of a new connection's leading bytes that the
two registered matchers inspect: whether the client speaks HTTP/2 and with
which content-type header, and whether the leading bytes are an HTTP/1.x
request line. -/
structure Conn where
  http2 : Bool
  contentType : String
  http1 : Bool
deriving DecidableEq, Repr

/-- Where the demultiplexer sends a connection: one of the two registered
sub-listeners, or closed as unmatched (surfaced as a transport error). -/
inductive Route where
  | grpcServer
  | httpServer
  | closedNotMatched
deriving DecidableEq, Repr

/-- The first registered matcher,
`cmux.HTTP2MatchHeaderFieldPrefixSendSettings("content-type", "application/grpc")`:
fires on an HTTP/2 connection whose content-type header value starts with
`application/grpc`. -/
def grpcContentTypeMatcher (c : Conn) : Bool :=
  c.http2 && c.contentType.startsWith ("application/grpc")

/-- The second registered matcher, `cmux.HTTP1Fast()`: fires on a plain
HTTP/1.x request. -/
def http1FastMatcher (c : Conn) : Bool :=
  c.http1

/-- Modelled from the spec: the `cmux` dispatch loop — try each registered
matcher in registration order, route the connection to the first that
fires, close it as unmatched when none does. -/
def cmuxDispatch (matchers : List (Route × (Conn → Bool))) (c : Conn) : Route :=
  match matchers with
  | [] => Route.closedNotMatched
  | (r, m) :: rest => if m c then r else cmuxDispatch rest c

/-- The matcher registration order of `Start`: the gRPC matcher is
registered first, the HTTP/1.x matcher second. -/
def startMatchers : List (Route × (Conn → Bool)) :=
  [(Route.grpcServer, grpcContentTypeMatcher), (Route.httpServer, http1FastMatcher)]

/-- The demultiplexer built by `Start`, applied to one new connection. -/
def startDispatch (c : Conn) : Route :=
  cmuxDispatch startMatchers c

/-! ### Fatality of the serve loops (`Start` and `main`)

`Start` is a sequence of fallible steps whose failure handling is visible
in the source: `net.Listen` failure panics; failure of `prepareGRPC` or
`prepareHTTP` calls `log.Fatalln` (which exits the process); each serve
goroutine calls `log.Fatalln` when its `Serve` returns an error; and when
`tcpMux.Serve()` returns an error, `Start` returns it to `main`, which
discards it and returns, ending the process.  The model below maps each of
these control-flow paths to the resulting process-level outcome. -/

/-- Which fallible step of `Start`, if any, fails with an unrecoverable
error. -/
inductive StartScenario where
  | listenFail (e : GoError)
  | grpcInitFail (e : GoError)
  | httpInitFail (e : GoError)
  | grpcServeFail (e : GoError)
  | httpServeFail (e : GoError)
  | muxServeFail (e : GoError)
  | allLoopsServing
deriving DecidableEq, Repr

/-- Whether the gateway process is still running. -/
inductive ProcessOutcome where
  | terminated
  | serving
deriving DecidableEq, Repr

/-- The process-level outcome of `Start` (as called by `main`) for each
scenario, translated from the failure handling in the source:
`panic(err)` after `net.Listen` (unrecovered, so the process dies),
`log.Fatalln` after `prepareGRPC`/`prepareHTTP` and inside both serve
goroutines (`log.Fatalln` calls `os.Exit(1)`), and for `tcpMux.Serve()`
returning an error, `Start` returns it to `main`, `main` discards it and
returns, which ends the process.  Only when every loop keeps serving does
the process keep running (`tcpMux.Serve()` blocks). -/
def gatewayProcessOutcome : StartScenario → ProcessOutcome
  | StartScenario.listenFail _ => ProcessOutcome.terminated
  | StartScenario.grpcInitFail _ => ProcessOutcome.terminated
  | StartScenario.httpInitFail _ => ProcessOutcome.terminated
  | StartScenario.grpcServeFail _ => ProcessOutcome.terminated
  | StartScenario.httpServeFail _ => ProcessOutcome.terminated
  | StartScenario.muxServeFail _ => ProcessOutcome.terminated
  | StartScenario.allLoopsServing => ProcessOutcome.serving

/-! ### Sample values used by witnesses and counterexamples -/

/-- A concrete gateway configuration for concrete evaluations. -/
def sampleConfig : FxGatewayConfig :=
  { tcpPort := 10000
    functionNamespace := "openfx-fn"
    fxWatcherPort := 50051
    invokeTimeout := 30
    readTimeout := 10
    writeTimeout := 10
    idleTimeout := 60
    enableHttpProbe := true
    imagePullPolicy := "Always"
    secretMountPath := "/var/openfx/secrets"
    prometheusHost := "prometheus"
    prometheusPort := 9090 }

/-- A concrete gateway for concrete evaluations. -/
def sampleGateway : FxGateway :=
  NewFxGateway sampleConfig { clusterId := 0 }

/-- A concrete backend function named `echo` for concrete evaluations. -/
def echoFunction : Function :=
  { name := "echo"
    fnNamespace := "openfx-fn"
    runtime := "go"
    limits := { memory := "64Mi", cpu := "", gpu := "" }
    trigger := { name := "", topic := "", time := "" }
    replicas := 1
    invocationCount := 0
    avgDuration := 0
    lastStatus := "" }

/-- The reply shape the spec requires from a lifecycle handler, as a
function of the backend call's result: the fixed marker `"OK"` with nil
error on success, the classified error with nil reply on failure — never a
reply with an embedded error field (a `pb.Message` has none). -/
def lifecycleExpected (f : FxGateway) (r : Except GoError Unit) (call : String) :
    HandlerOut Message :=
  match r with
  | .error e =>
      { reply := none, error := some e, metricsEvents := []
        backendCalls := [call], gatewayAfter := f }
  | .ok _ =>
      { reply := some { msg := "OK" }, error := none, metricsEvents := []
        backendCalls := [call], gatewayAfter := f }

/-- Exactly one half of the Go `(reply, error)` return pair is set. -/
def exclusiveOutcome {α : Type} (out : HandlerOut α) : Prop :=
  (out.reply.isSome = true ∧ out.error = none) ∨ (out.reply = none ∧ out.error.isSome = true)

/-- Enrichment never changes a function's name. -/
theorem addMetricsFunction_name_eq (fn : Function) (fetch : String → Option FunctionMetrics) :
    (AddMetricsFunction fn fetch).name = fn.name := by
  unfold AddMetricsFunction
  cases fetch fn.name <;> rfl

/-- Enrichment of a list preserves the names, in order (so no function is
dropped and none is added). -/
theorem addMetricsFunctions_names_eq (fns : List Function)
    (fetch : String → Option FunctionMetrics) :
    (AddMetricsFunctions fns fetch).map Function.name = fns.map Function.name := by
  simp [AddMetricsFunctions, List.map_map, Function.comp, addMetricsFunction_name_eq]

/-! ### Claims -/

/-- C1 counterexample: the claim says a failed sidecar invocation is
recorded in the metrics registry with a failure outcome before the error is
returned.  At the concrete call `Invoke(service := "echo", input := "hi")`
whose sidecar call fails with `connection refused`, the handler returns the
error but issues no metrics-registry write at all — no counter increment
with any outcome label and no duration record. -/
theorem invoke_failure_metrics_counterexample :
    (FxGateway.Invoke sampleGateway { service := "echo", input := [104, 105] }
        (fun _ _ _ _ _ => Except.error ("connection refused")) 5).metricsEvents = []
    ∧ (FxGateway.Invoke sampleGateway { service := "echo", input := [104, 105] }
        (fun _ _ _ _ _ => Except.error ("connection refused")) 5).error
      = some ("connection refused") :=
  ⟨rfl, rfl⟩

/-- C1 (amended): for every Invoke call whose sidecar invocation fails, the
handler returns the error to the caller with a nil reply and performs no
metrics recording at all for that call — no failure increment, no duration
record, and in particular no success increment. -/
theorem invoke_failure_no_metrics (f : FxGateway) (s : InvokeServiceRequest)
    (serviceInvoke : String → String → Nat → List Nat → Nat → Except GoError String)
    (elapsed : Nat) (e : GoError)
    (h : serviceInvoke s.service f.conf.functionNamespace f.conf.fxWatcherPort s.input
        f.conf.invokeTimeout = Except.error e) :
    FxGateway.Invoke f s serviceInvoke elapsed =
      { reply := none, error := some e, metricsEvents := []
        backendCalls := ["service.Invoke"], gatewayAfter := f } := by
  unfold FxGateway.Invoke
  rw [h]

/-- C1 witness: the amended theorem applied at a concrete failing call. -/
theorem invoke_failure_no_metrics_witness :
    FxGateway.Invoke sampleGateway { service := "echo", input := [104, 105] }
        (fun _ _ _ _ _ => Except.error ("boom")) 7 =
      { reply := none, error := some ("boom"), metricsEvents := []
        backendCalls := ["service.Invoke"], gatewayAfter := sampleGateway } :=
  invoke_failure_no_metrics sampleGateway { service := "echo", input := [104, 105] }
    (fun _ _ _ _ _ => Except.error ("boom")) 7 ("boom") rfl

/-- C2 counterexample: the claim says each connection is routed to exactly
one of the two sub-listeners.  A connection whose leading bytes are neither
an HTTP/2 gRPC negotiation nor an HTTP/1.x request (for example a raw TLS
handshake) is routed to neither: the demultiplexer closes it as unmatched. -/
theorem demux_unmatched_connection_counterexample :
    startDispatch { http2 := false, contentType := "", http1 := false }
      = Route.closedNotMatched
    ∧ Route.closedNotMatched ≠ Route.grpcServer
    ∧ Route.closedNotMatched ≠ Route.httpServer :=
  ⟨rfl, by decide, by decide⟩

/-- C2 (amended): the matchers are evaluated in strict registration order —
the gRPC content-type matcher first, and only connections not matching it
fall through to the HTTP/1.x matcher — so each connection is routed to at
most one of the two sub-listeners; a connection matching neither is closed
by the demultiplexer as unmatched rather than routed. -/
theorem start_matcher_order_and_fallthrough (c : Conn) :
    startDispatch c =
      if grpcContentTypeMatcher c then Route.grpcServer
      else if http1FastMatcher c then Route.httpServer
      else Route.closedNotMatched :=
  rfl

/-- C3: for every Invoke call whose sidecar invocation succeeds, the
handler returns a reply whose message equals the sidecar's output
unchanged, and issues exactly one metrics notification carrying the invoked
function's name, the elapsed duration, and the success outcome label
`"OK"`. -/
theorem invoke_success_reply_and_single_notify (f : FxGateway) (s : InvokeServiceRequest)
    (serviceInvoke : String → String → Nat → List Nat → Nat → Except GoError String)
    (elapsed : Nat) (output : String)
    (h : serviceInvoke s.service f.conf.functionNamespace f.conf.fxWatcherPort s.input
        f.conf.invokeTimeout = Except.ok output) :
    FxGateway.Invoke f s serviceInvoke elapsed =
      { reply := some { msg := output }, error := none
        metricsEvents := [MetricsEvent.notify s.service elapsed ("OK")]
        backendCalls := ["service.Invoke"], gatewayAfter := f } := by
  unfold FxGateway.Invoke
  rw [h]

/-- C3 witness: a concrete successful echo invocation. -/
theorem invoke_success_reply_and_single_notify_witness :
    FxGateway.Invoke sampleGateway { service := "echo", input := [104, 105] }
        (fun _ _ _ _ _ => Except.ok ("hi")) 3 =
      { reply := some { msg := "hi" }, error := none
        metricsEvents := [MetricsEvent.notify ("echo") 3 ("OK")]
        backendCalls := ["service.Invoke"], gatewayAfter := sampleGateway } :=
  invoke_success_reply_and_single_notify sampleGateway { service := "echo", input := [104, 105] }
    (fun _ _ _ _ _ => Except.ok ("hi")) 3 ("hi") rfl

/-- C4: HealthCheck returns the fixed reply `"OK"` with no error for every
gateway state and every input; it makes no service-layer call (its
`backendCalls` trace is empty, and it takes no backend behaviour at all),
so it never depends on backend reachability. -/
theorem healthCheck_fixed_ok (f : FxGateway) (s : PbEmpty) :
    FxGateway.HealthCheck f s =
      { reply := some { msg := "OK" }, error := none, metricsEvents := []
        backendCalls := [], gatewayAfter := f } :=
  rfl

/-- C5: when the backend listing (resp. metadata fetch) succeeds, List
(resp. GetMeta) never fails because of metrics enrichment and never drops a
function: for every enrichment behaviour `fetch`, including one failing for
every function, the call returns with nil error, List's reply holds the
enrichment of exactly the backend's functions — same names in the same
order — and GetMeta's reply holds the backend's function with its name
unchanged. -/
theorem list_getMeta_best_effort_enrichment (f : FxGateway) (sL : PbEmpty)
    (sM : FunctionRequest)
    (serviceList : String → Clientset → Except GoError (List Function))
    (serviceGetMeta : String → String → Clientset → Except GoError Function)
    (fetch : String → Option FunctionMetrics)
    (fns : List Function) (fn : Function)
    (hL : serviceList f.conf.functionNamespace f.kubeClient = Except.ok fns)
    (hM : serviceGetMeta sM.functionName f.conf.functionNamespace f.kubeClient
        = Except.ok fn) :
    (FxGateway.List f sL serviceList fetch).error = none
    ∧ (FxGateway.List f sL serviceList fetch).reply
        = some { functions := AddMetricsFunctions fns fetch }
    ∧ (AddMetricsFunctions fns fetch).map Function.name = fns.map Function.name
    ∧ (FxGateway.GetMeta f sM serviceGetMeta fetch).error = none
    ∧ (FxGateway.GetMeta f sM serviceGetMeta fetch).reply
        = some (AddMetricsFunction fn fetch)
    ∧ (AddMetricsFunction fn fetch).name = fn.name := by
  refine ⟨?_, ?_, addMetricsFunctions_names_eq fns fetch, ?_, ?_,
    addMetricsFunction_name_eq fn fetch⟩ <;>
    simp [FxGateway.List, FxGateway.GetMeta, hL, hM]

/-- C5 witness: a concrete backend holding only `echo`, with an enrichment
fetch that fails for every function; the list call still succeeds and still
returns `echo`, and so does GetMeta. -/
theorem list_getMeta_best_effort_enrichment_witness :
    (FxGateway.List sampleGateway {} (fun _ _ => Except.ok [echoFunction])
        (fun _ => none)).error = none
    ∧ (FxGateway.List sampleGateway {} (fun _ _ => Except.ok [echoFunction])
        (fun _ => none)).reply
        = some { functions := AddMetricsFunctions [echoFunction] (fun _ => none) }
    ∧ (AddMetricsFunctions [echoFunction] (fun _ => none)).map Function.name
        = [echoFunction].map Function.name
    ∧ (FxGateway.GetMeta sampleGateway { functionName := "echo" }
        (fun _ _ _ => Except.ok echoFunction) (fun _ => none)).error = none
    ∧ (FxGateway.GetMeta sampleGateway { functionName := "echo" }
        (fun _ _ _ => Except.ok echoFunction) (fun _ => none)).reply
        = some (AddMetricsFunction echoFunction (fun _ => none))
    ∧ (AddMetricsFunction echoFunction (fun _ => none)).name = echoFunction.name :=
  list_getMeta_best_effort_enrichment sampleGateway {} { functionName := "echo" }
    (fun _ _ => Except.ok [echoFunction]) (fun _ _ _ => Except.ok echoFunction)
    (fun _ => none) [echoFunction] echoFunction rfl rfl

/-- C6: each lifecycle handler (Deploy, Delete, Update, ReplicaUpdate)
returns exactly the spec's shape as a function of its backend call's
result: the fixed marker `"OK"` with nil error when the backend call
succeeds, the classified error with nil reply when it fails — never a
reply with an embedded error field. -/
theorem lifecycle_success_marker_or_error (f : FxGateway)
    (sc su : CreateFunctionRequest) (sd : DeleteFunctionRequest)
    (ss : ScaleServiceRequest)
    (rDeploy rDelete rUpdate rScale : Except GoError Unit) :
    FxGateway.Deploy f sc (fun _ _ _ => rDeploy)
      = lifecycleExpected f rDeploy ("service.Deploy")
    ∧ FxGateway.Delete f sd (fun _ _ _ => rDelete)
      = lifecycleExpected f rDelete ("service.Delete")
    ∧ FxGateway.Update f su (fun _ _ _ _ => rUpdate)
      = lifecycleExpected f rUpdate ("service.Update")
    ∧ FxGateway.ReplicaUpdate f ss (fun _ _ _ => rScale)
      = lifecycleExpected f rScale ("service.ReplicaUpdate") := by
  refine ⟨?_, ?_, ?_, ?_⟩
  · cases rDeploy <;> rfl
  · cases rDelete <;> rfl
  · cases rUpdate <;> rfl
  · cases rScale <;> rfl

/-- C7: every unrecoverable exit terminates the gateway process — listener
setup failure (a panic), gRPC or HTTP server initialization failure
(`log.Fatalln`), an error from the gRPC or HTTP serve loop
(`log.Fatalln` in the serve goroutines), and an error from the
demultiplexer's accept loop (returned from `Start` to `main`, which then
returns, ending the process). -/
theorem serve_loop_exit_fatal (e : GoError) :
    gatewayProcessOutcome (StartScenario.listenFail e) = ProcessOutcome.terminated
    ∧ gatewayProcessOutcome (StartScenario.grpcInitFail e) = ProcessOutcome.terminated
    ∧ gatewayProcessOutcome (StartScenario.httpInitFail e) = ProcessOutcome.terminated
    ∧ gatewayProcessOutcome (StartScenario.grpcServeFail e) = ProcessOutcome.terminated
    ∧ gatewayProcessOutcome (StartScenario.httpServeFail e) = ProcessOutcome.terminated
    ∧ gatewayProcessOutcome (StartScenario.muxServeFail e) = ProcessOutcome.terminated :=
  ⟨rfl, rfl, rfl, rfl, rfl, rfl⟩

/-- C8: Delete never writes to the metrics registry: for every input and
every backend behaviour — success or failure, including a not-found error
for a nonexistent function — its metrics-event trace is empty, so there is
no counter increment, no histogram record and no gauge reset. -/
theorem delete_writes_no_metrics (f : FxGateway) (s : DeleteFunctionRequest)
    (serviceDelete : String → String → Clientset → Except GoError Unit) :
    (FxGateway.Delete f s serviceDelete).metricsEvents = [] := by
  cases h : serviceDelete s.functionName f.conf.functionNamespace f.kubeClient with
  | error e => simp [FxGateway.Delete, h]
  | ok u => simp [FxGateway.Delete, h]

/-- C9: no RPC handler mutates any field of the gateway struct: for every
handler, every input and every collaborator behaviour, the gateway value
after the call equals the gateway value before it, so every request
observes the configuration resolved at startup. -/
theorem handlers_leave_gateway_unchanged (f : FxGateway)
    (si : InvokeServiceRequest) (se : PbEmpty) (sc su : CreateFunctionRequest)
    (sd : DeleteFunctionRequest) (sm sl : FunctionRequest) (ss : ScaleServiceRequest)
    (gInvoke : String → String → Nat → List Nat → Nat → Except GoError String)
    (elapsed : Nat)
    (gList : String → Clientset → Except GoError (List Function))
    (fetch : String → Option FunctionMetrics)
    (gDeploy : CreateFunctionRequest → Clientset → DeployHandlerConfig → Except GoError Unit)
    (gDelete : String → String → Clientset → Except GoError Unit)
    (gUpdate : String → CreateFunctionRequest → Clientset → String → Except GoError Unit)
    (gGetMeta : String → String → Clientset → Except GoError Function)
    (gGetLog : String → String → Clientset → Except GoError String)
    (gScale : String → ScaleServiceRequest → Clientset → Except GoError Unit)
    (gInfo : Clientset → Except GoError String) :
    (FxGateway.Invoke f si gInvoke elapsed).gatewayAfter = f
    ∧ (FxGateway.List f se gList fetch).gatewayAfter = f
    ∧ (FxGateway.Deploy f sc gDeploy).gatewayAfter = f
    ∧ (FxGateway.Delete f sd gDelete).gatewayAfter = f
    ∧ (FxGateway.Update f su gUpdate).gatewayAfter = f
    ∧ (FxGateway.GetMeta f sm gGetMeta fetch).gatewayAfter = f
    ∧ (FxGateway.GetLog f sl gGetLog).gatewayAfter = f
    ∧ (FxGateway.ReplicaUpdate f ss gScale).gatewayAfter = f
    ∧ (FxGateway.Info f se gInfo).gatewayAfter = f
    ∧ (FxGateway.HealthCheck f se).gatewayAfter = f := by
  refine ⟨?_, ?_, ?_, ?_, ?_, ?_, ?_, ?_, ?_, rfl⟩
  · cases h : gInvoke si.service f.conf.functionNamespace f.conf.fxWatcherPort si.input
        f.conf.invokeTimeout <;>
      simp [FxGateway.Invoke, h]
  · cases h : gList f.conf.functionNamespace f.kubeClient <;>
      simp [FxGateway.List, h]
  · cases h : gDeploy sc f.kubeClient
        { enableHttpProbe := f.conf.enableHttpProbe
          imagePullPolicy := f.conf.imagePullPolicy
          functionNamespace := f.conf.functionNamespace
          fxWatcherPort := f.conf.fxWatcherPort
          secretMountPath := f.conf.secretMountPath } <;>
      simp [FxGateway.Deploy, h]
  · cases h : gDelete sd.functionName f.conf.functionNamespace f.kubeClient <;>
      simp [FxGateway.Delete, h]
  · cases h : gUpdate f.conf.functionNamespace su f.kubeClient f.conf.secretMountPath <;>
      simp [FxGateway.Update, h]
  · cases h : gGetMeta sm.functionName f.conf.functionNamespace f.kubeClient <;>
      simp [FxGateway.GetMeta, h]
  · cases h : gGetLog sl.functionName f.conf.functionNamespace f.kubeClient <;>
      simp [FxGateway.GetLog, h]
  · cases h : gScale f.conf.functionNamespace ss f.kubeClient <;>
      simp [FxGateway.ReplicaUpdate, h]
  · cases h : gInfo f.kubeClient <;>
      simp [FxGateway.Info, h]

/-- C10: every handler returns exactly one half of the Go `(reply, error)`
pair: a non-nil reply with nil error on success, or a nil reply with a
non-nil error on failure — for every input and every collaborator
behaviour. -/
theorem handlers_exclusive_reply_or_error (f : FxGateway)
    (si : InvokeServiceRequest) (se : PbEmpty) (sc su : CreateFunctionRequest)
    (sd : DeleteFunctionRequest) (sm sl : FunctionRequest) (ss : ScaleServiceRequest)
    (gInvoke : String → String → Nat → List Nat → Nat → Except GoError String)
    (elapsed : Nat)
    (gList : String → Clientset → Except GoError (List Function))
    (fetch : String → Option FunctionMetrics)
    (gDeploy : CreateFunctionRequest → Clientset → DeployHandlerConfig → Except GoError Unit)
    (gDelete : String → String → Clientset → Except GoError Unit)
    (gUpdate : String → CreateFunctionRequest → Clientset → String → Except GoError Unit)
    (gGetMeta : String → String → Clientset → Except GoError Function)
    (gGetLog : String → String → Clientset → Except GoError String)
    (gScale : String → ScaleServiceRequest → Clientset → Except GoError Unit)
    (gInfo : Clientset → Except GoError String) :
    exclusiveOutcome (FxGateway.Invoke f si gInvoke elapsed)
    ∧ exclusiveOutcome (FxGateway.List f se gList fetch)
    ∧ exclusiveOutcome (FxGateway.Deploy f sc gDeploy)
    ∧ exclusiveOutcome (FxGateway.Delete f sd gDelete)
    ∧ exclusiveOutcome (FxGateway.Update f su gUpdate)
    ∧ exclusiveOutcome (FxGateway.GetMeta f sm gGetMeta fetch)
    ∧ exclusiveOutcome (FxGateway.GetLog f sl gGetLog)
    ∧ exclusiveOutcome (FxGateway.ReplicaUpdate f ss gScale)
    ∧ exclusiveOutcome (FxGateway.Info f se gInfo)
    ∧ exclusiveOutcome (FxGateway.HealthCheck f se) := by
  refine ⟨?_, ?_, ?_, ?_, ?_, ?_, ?_, ?_, ?_, Or.inl ⟨rfl, rfl⟩⟩
  · cases h : gInvoke si.service f.conf.functionNamespace f.conf.fxWatcherPort si.input
        f.conf.invokeTimeout <;>
      simp [exclusiveOutcome, FxGateway.Invoke, h]
  · cases h : gList f.conf.functionNamespace f.kubeClient <;>
      simp [exclusiveOutcome, FxGateway.List, h]
  · cases h : gDeploy sc f.kubeClient
        { enableHttpProbe := f.conf.enableHttpProbe
          imagePullPolicy := f.conf.imagePullPolicy
          functionNamespace := f.conf.functionNamespace
          fxWatcherPort := f.conf.fxWatcherPort
          secretMountPath := f.conf.secretMountPath } <;>
      simp [exclusiveOutcome, FxGateway.Deploy, h]
  · cases h : gDelete sd.functionName f.conf.functionNamespace f.kubeClient <;>
      simp [exclusiveOutcome, FxGateway.Delete, h]
  · cases h : gUpdate f.conf.functionNamespace su f.kubeClient f.conf.secretMountPath <;>
      simp [exclusiveOutcome, FxGateway.Update, h]
  · cases h : gGetMeta sm.functionName f.conf.functionNamespace f.kubeClient <;>
      simp [exclusiveOutcome, FxGateway.GetMeta, h]
  · cases h : gGetLog sl.functionName f.conf.functionNamespace f.kubeClient <;>
      simp [exclusiveOutcome, FxGateway.GetLog, h]
  · cases h : gScale f.conf.functionNamespace ss f.kubeClient <;>
      simp [exclusiveOutcome, FxGateway.ReplicaUpdate, h]
  · cases h : gInfo f.kubeClient <;>
      simp [exclusiveOutcome, FxGateway.Info, h]

end OpenFx
